import Mathlib

/-!
Verification of the Smart-Expense-Analyzer core (transaction categorizer and
user-profile analysis) against its natural-language specification.

The Python source is shallowly embedded: pandas DataFrames become `List Row`,
amounts are exact rationals `ℚ` (the source computes in floating point; all
amounts of interest are small decimals where the two agree), month buckets
(`pandas.Period('M')`) become `Nat` keys `year * 12 + month`, and
`numpy.polyfit(range n, ys, 1)` is embedded as the exact ordinary-least-squares
slope it computes.
-/

namespace SmartExpense

/-- CATEGORIES from src/config.py. -/
def CATEGORIES : List String :=
  ["Food & Dining", "Transportation", "Shopping", "Bills & Utilities",
   "Entertainment", "Healthcare", "Education", "Travel", "Investments",
   "Income", "Other"]

/-- CATEGORY_KEYWORDS from src/config.py, an insertion-ordered mapping from
category to keyword list, transcribed in declaration order. -/
def CATEGORY_KEYWORDS : List (String × List String) :=
  [("Food & Dining",
    ["food", "restaurant", "swiggy", "zomato", "dominos", "mcdonalds",
     "starbucks", "grocery", "supermarket", "cafe", "dining", "meal",
     "pizza", "burger", "coffee", "tea", "snack", "lunch", "dinner"]),
   ("Transportation",
    ["uber", "ola", "taxi", "cab", "petrol", "diesel", "fuel", "gas",
     "bus", "train", "metro", "parking", "toll", "transport", "ride"]),
   ("Shopping",
    ["amazon", "flipkart", "myntra", "shopping", "mall", "store", "shop",
     "clothes", "fashion", "electronics", "book", "purchase", "order"]),
   ("Bills & Utilities",
    ["electricity", "water", "internet", "phone", "bill", "utility",
     "gas", "rent", "insurance", "credit card", "premium", "subscription"]),
   ("Entertainment",
    ["netflix", "spotify", "movie", "cinema", "game", "gaming", "entertainment",
     "concert", "theater", "streaming", "music", "video", "show"]),
   ("Healthcare",
    ["hospital", "doctor", "medicine", "pharmacy", "health", "medical",
     "clinic", "dental", "eye", "prescription", "treatment"]),
   ("Education",
    ["school", "college", "university", "course", "book", "education",
     "tuition", "fee", "student", "learning", "training"]),
   ("Travel",
    ["hotel", "flight", "travel", "vacation", "trip", "booking",
     "airline", "resort", "tourism", "journey"]),
   ("Investments",
    ["investment", "mutual fund", "stock", "savings", "sip", "equity",
     "portfolio", "fund", "trading", "brokerage"]),
   ("Income",
    ["salary", "bonus", "income", "credit", "deposit", "refund",
     "cashback", "interest", "dividend", "freelance", "payment"])]

/-- Python's `str.lower()`, embedded as a character-wise map (all
descriptions and keywords in this program are ASCII, where the two agree). -/
def strLower (s : String) : String :=
  String.mk (s.data.map Char.toLower)

/-- Python's `keyword in description_lower`: the keyword is a contiguous
substring of the (already lower-cased) description. -/
def keywordHit (descLower kw : String) : Bool :=
  decide (kw.data <:+: descLower.data)

/-- The nested loop of `categorize_transaction` (src/transaction_categorizer.py
lines 14-17): scan categories in table order, keywords in declaration order
within each category, and return the first category one of whose keywords
occurs in the description. -/
def findMatch (table : List (String × List String)) (descLower : String) :
    Option String :=
  match table with
  | [] => none
  | p :: rest =>
    if p.2.any (fun kw => keywordHit descLower kw) then some p.1
    else findMatch rest descLower

/-- categorize_transaction from src/transaction_categorizer.py: keyword scan
first, then the type/amount fallback chain. -/
def categorize_transaction (description : String) (amount : ℚ)
    (transaction_type : String) : String :=
  let description_lower := strLower description
  match findMatch CATEGORY_KEYWORDS description_lower with
  | some category => category
  | none =>
    if transaction_type = "Credit" then "Income"
    else if amount > 10000 then "Shopping"
    else if amount > 1000 then "Bills & Utilities"
    else "Other"

/-! Data model for the analysis pipeline (src/user_profile.py).

A DataFrame row carries a date, description, amount, type and category.
The date is either still the raw string read from CSV (`DateVal.raw`) or a
parsed datetime (`DateVal.ts`), mirroring the object-vs-datetime64 dtype of
the pandas column; `pd.to_datetime` parses the former and is the identity on
the latter. -/

/-- Value of the `date` column: raw text or parsed datetime (year, month, day). -/
inductive DateVal where
  | raw (s : String)
  | ts (y m d : Nat)
deriving DecidableEq

/-- Split a character list on the dash separator of an ISO date. -/
def splitDashAux : List Char → List Char → List (List Char)
  | [], acc => [acc.reverse]
  | c :: cs, acc =>
    if c = '-' then acc.reverse :: splitDashAux cs []
    else splitDashAux cs (c :: acc)

/-- Decimal digits to a natural number. -/
def digitsToNat (l : List Char) : Nat :=
  l.foldl (fun n c => n * 10 + (c.toNat - 48)) 0

/-- Parse an ISO "YYYY-MM-DD" date string into (year, month, day); the
ingestion stage guarantees dates are parseable, so the catch-all is arbitrary. -/
def parseISO (s : String) : Nat × Nat × Nat :=
  match splitDashAux s.data [] with
  | [y, m, d] => (digitsToNat y, digitsToNat m, digitsToNat d)
  | _ => (0, 0, 0)

/-- pd.to_datetime on one cell: parse raw text, leave datetimes unchanged. -/
def to_datetime : DateVal → DateVal
  | .raw s => DateVal.ts (parseISO s).1 (parseISO s).2.1 (parseISO s).2.2
  | .ts y m d => DateVal.ts y m d

/-- Whether a date cell is already in parsed datetime form. -/
def DateVal.isTs : DateVal → Bool
  | .raw _ => false
  | .ts _ _ _ => true

/-- One row of the transaction DataFrame. -/
structure Row where
  date : DateVal
  description : String
  amount : ℚ
  txType : String
  category : String
deriving DecidableEq

/-- The pandas `Period('M')` bucket of a row's date: a year-month key with
the chronological total order. -/
def monthKey (r : Row) : Nat :=
  match to_datetime r.date with
  | .ts y m _ => y * 12 + m
  | .raw _ => 0

/-- Chronological key of a full date, for the date-range min/max. -/
def dateKey (d : DateVal) : Nat :=
  match to_datetime d with
  | .ts y m dd => (y * 100 + m) * 100 + dd
  | .raw _ => 0

/-- First-occurrence deduplication (the observed keys of a pandas groupby),
written with an accumulator so the kernel can evaluate it. -/
def dedupFirst [DecidableEq α] (seen : List α) : List α → List α
  | [] => []
  | a :: l => if a ∈ seen then dedupFirst seen l else a :: dedupFirst (a :: seen) l

/-- Lexicographic comparison of character lists by code point, the order
pandas uses on string group keys. -/
def charListLe : List Char → List Char → Bool
  | [], _ => true
  | _ :: _, [] => false
  | a :: as, b :: bs =>
    if a.toNat < b.toNat then true
    else if b.toNat < a.toNat then false
    else charListLe as bs

/-- Lexicographic string order (ASCII agrees with Python's). -/
def strLe (a b : String) : Bool :=
  charListLe a.data b.data

instance : DecidableRel (fun (a b : String) => strLe a b = true) :=
  fun a b => inferInstanceAs (Decidable (strLe a b = true))

instance : DecidableRel (fun (p q : String × ℚ) => q.2 ≤ p.2) :=
  fun p q => inferInstanceAs (Decidable (q.2 ≤ p.2))

instance : DecidableRel (fun (p q : String × Nat) => q.2 ≤ p.2) :=
  fun p q => inferInstanceAs (Decidable (q.2 ≤ p.2))

/-- `series.groupby(series.dt.to_period('M')).sum()`: the populated month
buckets in ascending (chronological) order, each paired with the sum of the
amounts falling in it. Months with no row are absent, not zero. -/
def monthlySums (rows : List Row) : List (Nat × ℚ) :=
  (List.insertionSort (fun a b : Nat => a ≤ b) (dedupFirst [] (rows.map monthKey))).map
    (fun k => (k, ((rows.filter (fun r => monthKey r == k)).map Row.amount).sum))

/-- Rows whose category is "Income" (`df[df['category'] == 'Income']`). -/
def incomeRows (df : List Row) : List Row :=
  df.filter (fun r => r.category == "Income")

/-- Rows whose category is not "Income" (`df[df['category'] != 'Income']`). -/
def expenseRows (df : List Row) : List Row :=
  df.filter (fun r => r.category != "Income")

/-- `Series.value_counts()`: occurrence counts of the distinct values, sorted
by count descending; ties keep the first-encountered order (stable sort over
first-occurrence grouping). -/
def value_counts (l : List String) : List (String × Nat) :=
  List.insertionSort (fun p q => q.2 ≤ p.2)
    ((dedupFirst [] l).map (fun s => (s, l.count s)))

/-- Result record of `_analyze_income`. -/
structure IncomeAnalysis where
  total_income : ℚ
  monthly_income_avg : ℚ
  income_sources : List (String × Nat)
deriving DecidableEq

/-- `_analyze_income` from src/user_profile.py lines 61-83. -/
def analyze_income (df : List Row) : IncomeAnalysis :=
  let income_df := incomeRows df
  if income_df.isEmpty then ⟨0, 0, []⟩
  else
    let monthly_income := monthlySums income_df
    ⟨(income_df.map Row.amount).sum,
     ((monthly_income.map Prod.snd).sum) / (monthly_income.length : ℚ),
     (value_counts (income_df.map Row.description)).take 5⟩

/-- Result record of `_analyze_expenses`. -/
structure ExpenseAnalysis where
  total_expenses : ℚ
  monthly_expenses_avg : ℚ
  expense_breakdown : List (String × ℚ)
  top_spending_categories : List (String × ℚ)
deriving DecidableEq

/-- `expense_df.groupby('category')['amount'].sum().sort_values(ascending=False)`:
per-category sums (groupby emits its keys in ascending category order), then
sorted by amount descending; the embedded sort is stable, so ties keep the
groupby's own alphabetical grouping order. -/
def categoryBreakdown (expense_df : List Row) : List (String × ℚ) :=
  List.insertionSort (fun p q => q.2 ≤ p.2)
    ((List.insertionSort (fun a b : String => strLe a b = true)
        (dedupFirst [] (expense_df.map Row.category))).map
      (fun c => (c, ((expense_df.filter (fun r => r.category == c)).map Row.amount).sum)))

/-- `_analyze_expenses` from src/user_profile.py lines 85-113. -/
def analyze_expenses (df : List Row) : ExpenseAnalysis :=
  let expense_df := expenseRows df
  if expense_df.isEmpty then ⟨0, 0, [], []⟩
  else
    let monthly_expenses := monthlySums expense_df
    let breakdown := categoryBreakdown expense_df
    ⟨(expense_df.map Row.amount).sum,
     ((monthly_expenses.map Prod.snd).sum) / (monthly_expenses.length : ℚ),
     breakdown,
     breakdown.take 5⟩

/-- Slope of `np.polyfit(range(len ys), ys, 1)`: the ordinary-least-squares
line fitted to the points (0, ys 0), ..., (n-1, ys (n-1)), in exact rational
arithmetic (the source computes it in floating point). -/
def olsSlope (ys : List ℚ) : ℚ :=
  let n : ℚ := (ys.length : ℚ)
  let xs : List ℚ := (List.range ys.length).map (fun i => (i : ℚ))
  let sx := xs.sum
  let sy := ys.sum
  let sxy := ((xs.zip ys).map (fun p => p.1 * p.2)).sum
  let sxx := (xs.map (fun x => x * x)).sum
  (n * sxy - sx * sy) / (n * sxx - sx * sx)

/-- Result record of `_analyze_spending_patterns` (month keys as `monthKey`
values; the empty-filter branch, which omits `monthly_spending`, is modelled
with an empty list). -/
structure SpendingPatterns where
  spending_trend : String
  highest_spending_month : Option Nat
  lowest_spending_month : Option Nat
  monthly_spending : List (Nat × ℚ)
deriving DecidableEq

/-- `Series.idxmax`: key of the first entry attaining the maximal value. -/
def idxmaxQ (l : List (Nat × ℚ)) : Option Nat :=
  (l.find? (fun p => l.all (fun q => decide (q.2 ≤ p.2)))).map Prod.fst

/-- `Series.idxmin`: key of the first entry attaining the minimal value. -/
def idxminQ (l : List (Nat × ℚ)) : Option Nat :=
  (l.find? (fun p => l.all (fun q => decide (p.2 ≤ q.2)))).map Prod.fst

/-- `_analyze_spending_patterns` from src/user_profile.py lines 115-152. -/
def analyze_spending_patterns (df : List Row) : SpendingPatterns :=
  let expense_df := expenseRows df
  if expense_df.isEmpty then ⟨"stable", none, none, []⟩
  else
    let monthly_spending := monthlySums expense_df
    let spending_trend :=
      if monthly_spending.length > 1 then
        let trend_slope := olsSlope (monthly_spending.map Prod.snd)
        if trend_slope > 0 then "increasing"
        else if trend_slope < 0 then "decreasing"
        else "stable"
      else "insufficient_data"
    ⟨spending_trend, idxmaxQ monthly_spending, idxminQ monthly_spending,
     monthly_spending⟩

/-- `_calculate_financial_health_score` from src/user_profile.py lines
154-192, with the fields it reads from the analysis dict and the profile
passed explicitly. The running score is an integer (all adjustments are
integer literals); 0.2 etc. are the exact rationals the comparisons use. -/
def calculate_financial_health_score (monthly_income monthly_expenses
    savings_target : ℚ) (spending_trend : String) : ℤ :=
  let score : ℤ := 50
  let score : ℤ :=
    if monthly_income > 0 then
      let savings_frac := (monthly_income - monthly_expenses) / monthly_income
      let score : ℤ :=
        if savings_frac > 0.2 then score + 20
        else if savings_frac > 0.1 then score + 10
        else if savings_frac > 0 then score + 5
        else score - 20
      if savings_target > 0 then
        let actual_savings := monthly_income - monthly_expenses
        if actual_savings ≥ savings_target then score + 15
        else if actual_savings ≥ savings_target * 0.8 then score + 10
        else if actual_savings ≥ savings_target * 0.5 then score + 5
        else score
      else score
    else score
  let score : ℤ :=
    if spending_trend = "decreasing" then score + 10
    else if spending_trend = "increasing" then score - 10
    else score
  max 0 (min 100 score)

/-- `financial_goals` of a user profile (src/user_profile.py lines 16-20). -/
structure FinancialGoals where
  monthly_savings_target : ℚ
  priority_categories : List String
  cut_cost_areas : List String
deriving DecidableEq

/-- The merged analysis dict built by `analyze_transactions`; the income,
expense and pattern sub-records are kept nested rather than flattened. -/
structure Analysis where
  total_transactions : Nat
  date_range_start : Nat
  date_range_end : Nat
  income : IncomeAnalysis
  expenses : ExpenseAnalysis
  patterns : SpendingPatterns
  financial_health_score : ℤ
deriving DecidableEq

/-- A user profile (src/user_profile.py lines 11-22); `transaction_analysis`
is absent until the first analysis run attaches it. -/
structure UserProfile where
  created_date : String
  financial_goals : FinancialGoals
  transaction_analysis : Option Analysis
deriving DecidableEq

/-- Minimum of a list of keys (the list is nonempty whenever used). -/
def listMin : List Nat → Nat
  | [] => 0
  | a :: l => l.foldl min a

/-- Maximum of a list of keys (the list is nonempty whenever used). -/
def listMax : List Nat → Nat
  | [] => 0
  | a :: l => l.foldl max a

/-- The analysis record `analyze_transactions` builds for a non-empty,
date-converted table (src/user_profile.py lines 33-54). -/
def computeAnalysis (df : List Row) (user_profile : UserProfile) : Analysis :=
  let inc := analyze_income df
  let expns := analyze_expenses df
  let pat := analyze_spending_patterns df
  ⟨df.length,
   listMin (df.map (fun r => dateKey r.date)),
   listMax (df.map (fun r => dateKey r.date)),
   inc, expns, pat,
   calculate_financial_health_score inc.monthly_income_avg
     expns.monthly_expenses_avg
     user_profile.financial_goals.monthly_savings_target pat.spending_trend⟩

/-- `analyze_transactions` from src/user_profile.py lines 24-59. An empty
table returns the profile untouched; otherwise the date column is converted
in place (`transactions_df['date'] = pd.to_datetime(...)`) — modelled by
returning the mutated table alongside the enhanced profile — and a freshly
computed analysis record replaces `transaction_analysis`. -/
def analyze_transactions (transactions_df : List Row)
    (user_profile : UserProfile) : List Row × UserProfile :=
  if transactions_df.isEmpty then (transactions_df, user_profile)
  else
    let df := transactions_df.map
      (fun r => ⟨to_datetime r.date, r.description, r.amount, r.txType, r.category⟩)
    (df, ⟨user_profile.created_date, user_profile.financial_goals,
          some (computeAnalysis df user_profile)⟩)

/-! Specification-side definitions, written from the spec's words, to be
compared with the source embedding above. -/

/-- The (category, keyword) pairs of CategoryKeywordTable flattened in
insertion order: categories in table order, keywords in declaration order
within each category. -/
def keywordPairs : List (String × String) :=
  CATEGORY_KEYWORDS.flatMap (fun p => p.2.map (fun k => (p.1, k)))

/-- The category of the first (category, keyword) pair, in table order, whose
keyword occurs in the lower-cased description. -/
def firstKeywordMatch (description : String) : Option String :=
  (keywordPairs.find? (fun p => keywordHit (strLower description) p.2)).map Prod.fst

/-- The fallback chain as the spec states it: Income on Credit, else Shopping
above 10000, else Bills & Utilities above 1000, else Other, strict
inequalities at both thresholds. -/
def specFallbackCategory (amount : ℚ) (ttype : String) : String :=
  if ttype = ("Credit") then ("Income")
  else if amount > 10000 then ("Shopping")
  else if amount > 1000 then ("Bills & Utilities")
  else ("Other")

/-- Arithmetic mean of the per-bucket sums, over the populated buckets only. -/
def meanOfBuckets (sums : List ℚ) : ℚ :=
  sums.sum / (sums.length : ℚ)

/-- Per-category amount sums over the distinct categories of the rows, in
first-encountered order (the unsorted content of the expense breakdown). -/
def perCategorySums (rows : List Row) : List (String × ℚ) :=
  (dedupFirst [] (rows.map Row.category)).map
    (fun c => (c, ((rows.filter (fun r => r.category == c)).map Row.amount).sum))

/-- Savings-ratio bracket bonus of the spec: above 0.20 gives +20, else above
0.10 gives +10, else positive gives +5, else -20. -/
def specRatioBonus (r : ℚ) : ℤ :=
  if r > 0.2 then 20
  else if r > 0.1 then 10
  else if r > 0 then 5
  else -20

/-- Savings-target bonus of the spec: meeting the target gives +15, else 80%
of it +10, else 50% of it +5, else nothing. -/
def specTargetBonus (actual target : ℚ) : ℤ :=
  if actual ≥ target then 15
  else if actual ≥ 0.8 * target then 10
  else if actual ≥ 0.5 * target then 5
  else 0

/-- Trend adjustment of the spec: decreasing +10, increasing -10, else 0. -/
def specTrendAdj (trend : String) : ℤ :=
  if trend = ("decreasing") then 10
  else if trend = ("increasing") then -10
  else 0

/-- The health score as the spec states it: 50, plus the ratio bracket bonus
and (nested inside the income-positive branch, when the target is positive)
the target bonus, plus the trend adjustment, clamped to the range 0 to 100. -/
def specHealthScore (inc expn tgt : ℚ) (trend : String) : ℤ :=
  let raw : ℤ := 50 +
    (if inc > 0 then
       specRatioBonus ((inc - expn) / inc) +
         (if tgt > 0 then specTargetBonus (inc - expn) tgt else 0)
     else 0) +
    specTrendAdj trend
  max 0 (min 100 raw)

instance instIsTotalDescSnd : IsTotal (String × ℚ) (fun p q => q.2 ≤ p.2) :=
  ⟨fun a b => le_total b.2 a.2⟩

instance instIsTransDescSnd : IsTrans (String × ℚ) (fun p q => q.2 ≤ p.2) :=
  ⟨fun _ _ _ hab hbc => le_trans hbc hab⟩

/-! Concrete data used by the witness and counterexample theorems. -/

/-- Income rows in months 2024-01 and 2024-03 summing 1000 and 3000, with no
row in 2024-02: the monthly-averaging example of the spec. -/
def exampleIncomeRows : List Row :=
  [⟨DateVal.ts 2024 1 5, "SALARY", 1000, "Credit", "Income"⟩,
   ⟨DateVal.ts 2024 3 9, "SALARY", 3000, "Credit", "Income"⟩]

/-- Expense rows over three months with increasing monthly sums. -/
def exampleTrendRows : List Row :=
  [⟨DateVal.ts 2024 1 5, "SWIGGY", 100, "Debit", "Food & Dining"⟩,
   ⟨DateVal.ts 2024 2 5, "UBER", 200, "Debit", "Transportation"⟩,
   ⟨DateVal.ts 2024 3 5, "AMAZON", 300, "Debit", "Shopping"⟩]

/-- A single-month expense table. -/
def exampleOneMonthRows : List Row :=
  [⟨DateVal.ts 2024 1 5, "SWIGGY", 100, "Debit", "Food & Dining"⟩]

/-- A categorized table whose date column still holds raw text. -/
def exampleRawDateRows : List Row :=
  [⟨DateVal.raw ("2024-01-05"), "SWIGGY", 200, "Debit", "Food & Dining"⟩]

/-- A categorized table whose date column is already in datetime form. -/
def exampleTsDateRows : List Row :=
  [⟨DateVal.ts 2024 1 5, "SWIGGY", 200, "Debit", "Food & Dining"⟩]

/-- A user profile with no savings target and no prior analysis. -/
def exampleProfile : UserProfile :=
  ⟨"2024-01-01", ⟨0, [], []⟩, none⟩

/-! Helper lemmas. -/

set_option maxRecDepth 8000

lemma find?_pairMap (d c : String) (kws : List String) (rest : List (String × String)) :
    (((kws.map (fun k => (c, k)) ++ rest).find? (fun p => keywordHit d p.2)).map Prod.fst) =
      if kws.any (fun kw => keywordHit d kw) then some c
      else ((rest.find? (fun p => keywordHit d p.2)).map Prod.fst) := by
  induction kws with
  | nil => simp
  | cons kw kws ih =>
    by_cases h : keywordHit d kw
    · rw [List.map_cons, List.cons_append,
        @List.find?_cons_of_pos (String × String) (fun q => keywordHit d q.2)
          (c, kw) (List.map (fun k => (c, k)) kws ++ rest) h]
      simp [h]
    · rw [List.map_cons, List.cons_append,
        @List.find?_cons_of_neg (String × String) (fun q => keywordHit d q.2)
          (c, kw) (List.map (fun k => (c, k)) kws ++ rest) h, ih]
      simp [h]

lemma findMatch_eq_flat (d : String) (table : List (String × List String)) :
    findMatch table d =
      (((table.flatMap (fun p => p.2.map (fun k => (p.1, k)))).find?
        (fun p => keywordHit d p.2)).map Prod.fst) := by
  induction table with
  | nil => rfl
  | cons hd rest ih =>
    rw [List.flatMap_cons, find?_pairMap]
    by_cases h : hd.2.any (fun kw => keywordHit d kw)
    · simp [findMatch, h]
    · simp [findMatch, h, ih]

lemma findMatch_eq_firstKeywordMatch (description : String) :
    findMatch CATEGORY_KEYWORDS (strLower description) = firstKeywordMatch description := by
  rw [findMatch_eq_flat]; rfl

lemma categorize_of_keyword (description : String) (amount : ℚ) (ttype c : String)
    (h : firstKeywordMatch description = some c) :
    categorize_transaction description amount ttype = c := by
  simp only [categorize_transaction, findMatch_eq_firstKeywordMatch, h]

lemma categorize_of_no_keyword (description : String) (amount : ℚ) (ttype : String)
    (h : ∀ p ∈ keywordPairs, keywordHit (strLower description) p.2 = false) :
    categorize_transaction description amount ttype = specFallbackCategory amount ttype := by
  have hn : firstKeywordMatch description = none := by
    unfold firstKeywordMatch
    have hfind : List.find? (fun p => keywordHit (strLower description) p.2)
        keywordPairs = none := by
      refine List.find?_eq_none.mpr ?_
      intro p hp
      simp [h p hp]
    rw [hfind]
    rfl
  simp only [categorize_transaction, findMatch_eq_firstKeywordMatch, hn,
    specFallbackCategory]

/-! Theorems for the claims. -/

/-- C1: for every description, `categorize_transaction` returns the category
of the first matching (category, keyword) pair in CategoryKeywordTable's
insertion order — categories in table order, keywords in declaration order
within a category, first substring match wins; in particular the description
"uber food delivery" yields "Food & Dining" for any amount and type. -/
theorem categorize_keyword_precedence :
    (∀ (description : String) (amount : ℚ) (ttype c : String),
        firstKeywordMatch description = some c →
        categorize_transaction description amount ttype = c) ∧
    (∀ (amount : ℚ) (ttype : String),
        categorize_transaction ("uber food delivery") amount ttype = "Food & Dining") := by
  constructor
  · exact fun description amount ttype c h => categorize_of_keyword description amount ttype c h
  · intro amount ttype
    exact categorize_of_keyword _ amount ttype _ (by decide)

/-- Witness for C1 at a concrete input: "uber food delivery" matches the
Food & Dining pair first. -/
theorem categorize_keyword_precedence_witness :
    categorize_transaction ("uber food delivery") 5 ("Debit") = "Food & Dining" :=
  categorize_keyword_precedence.1 ("uber food delivery") 5 ("Debit") ("Food & Dining")
    (by decide)

/-- C2: on a description whose lower-cased form contains no keyword of any
category, `categorize_transaction` follows the fallback chain — Income on
Credit, else Shopping above 10000, else Bills & Utilities above 1000, else
Other, with strict inequalities at both thresholds; amount exactly 10000
(Debit) gives Bills & Utilities and exactly 1000 (Debit) gives Other. -/
theorem categorize_fallback_chain :
    (∀ (description : String) (amount : ℚ) (ttype : String),
        (∀ p ∈ keywordPairs, keywordHit (strLower description) p.2 = false) →
        categorize_transaction description amount ttype =
          specFallbackCategory amount ttype) ∧
    categorize_transaction ("XYZ123") 10000 ("Debit") = "Bills & Utilities" ∧
    categorize_transaction ("XYZ123") 1000 ("Debit") = "Other" := by
  refine ⟨fun d a t h => categorize_of_no_keyword d a t h, by decide, by decide⟩

/-- Witness for C2 at a concrete input with no keyword hits. -/
theorem categorize_fallback_chain_witness :
    categorize_transaction ("XYZ123") 50000 ("Credit") =
      specFallbackCategory 50000 ("Credit") :=
  categorize_fallback_chain.1 ("XYZ123") 50000 ("Credit") (by decide)

/-- C3 counterexample: the claim "categorize_transaction never returns Income
for a Debit with non-negative amount" fails at description "SALARY", amount
0: the keyword path returns Income regardless of type. -/
theorem categorize_debit_income_cex :
    (0 : ℚ) ≤ 0 ∧ categorize_transaction ("SALARY") 0 ("Debit") = "Income" :=
  ⟨le_refl 0, by decide⟩

/-- C3 amended: for descriptions whose lower-cased form contains no keyword
of any category, `categorize_transaction` with type Debit never returns
"Income": the amount-based fallback alone cannot produce Income. (The
keyword path can: any description containing an Income keyword, such as
"SALARY", yields Income even for a Debit.) -/
theorem categorize_debit_no_income :
    ∀ (description : String) (amount : ℚ),
      (∀ p ∈ keywordPairs, keywordHit (strLower description) p.2 = false) →
      categorize_transaction description amount ("Debit") ≠ "Income" := by
  intro description amount h
  rw [categorize_of_no_keyword description amount ("Debit") h]
  unfold specFallbackCategory
  split_ifs with h1 h2 h3 <;> simp_all

/-- Witness for C3's amended theorem at a concrete keyword-free input. -/
theorem categorize_debit_no_income_witness :
    categorize_transaction ("XYZ123") 5 ("Debit") ≠ "Income" :=
  categorize_debit_no_income ("XYZ123") 5 (by decide)

lemma mem_dedupFirst [DecidableEq α] (a : α) (seen l : List α) :
    a ∈ dedupFirst seen l ↔ (a ∈ l ∧ a ∉ seen) := by
  induction l generalizing seen with
  | nil => simp [dedupFirst]
  | cons b l ih =>
    by_cases hb : b ∈ seen
    · rw [dedupFirst, if_pos hb, ih]
      constructor
      · rintro ⟨h1, h2⟩
        exact ⟨List.mem_cons_of_mem b h1, h2⟩
      · rintro ⟨h1, h2⟩
        rcases List.mem_cons.mp h1 with rfl | h1
        · exact absurd hb h2
        · exact ⟨h1, h2⟩
    · rw [dedupFirst, if_neg hb]
      simp only [List.mem_cons, ih]
      by_cases hab : a = b
      · subst hab
        simp [hb]
      · simp [hab]

lemma exists_mem_monthlySums_iff (rows : List Row) (k : Nat) :
    (∃ s, (k, s) ∈ monthlySums rows) ↔ ∃ r ∈ rows, monthKey r = k := by
  unfold monthlySums
  constructor
  · rintro ⟨s, hs⟩
    rcases List.mem_map.mp hs with ⟨k', hk', hEq⟩
    have hk : k' = k := congrArg Prod.fst hEq
    subst hk
    have h2 : k' ∈ dedupFirst [] (rows.map monthKey) :=
      ((List.perm_insertionSort _ _).mem_iff).mp hk'
    have h3 := (mem_dedupFirst k' [] (rows.map monthKey)).mp h2
    exact List.mem_map.mp h3.1
  · rintro ⟨r, hr, hrk⟩
    have h1 : k ∈ rows.map monthKey := List.mem_map.mpr ⟨r, hr, hrk⟩
    have h2 : k ∈ dedupFirst [] (rows.map monthKey) :=
      (mem_dedupFirst k [] (rows.map monthKey)).mpr ⟨h1, by simp⟩
    have h3 : k ∈ List.insertionSort (fun a b : Nat => a ≤ b)
        (dedupFirst [] (rows.map monthKey)) :=
      ((List.perm_insertionSort _ _).mem_iff).mpr h2
    exact ⟨_, List.mem_map.mpr ⟨k, h3, rfl⟩⟩

lemma isEmpty_false_of_ne_nil {l : List α} (h : l ≠ []) : l.isEmpty = false := by
  cases l with
  | nil => exact absurd rfl h
  | cons a l => rfl

unseal Rat.ofScientific Rat.mul Rat.inv Rat.add Rat.sub in
/-- C4: for a non-empty income ("Income"-category) row set,
`monthly_income_avg` is the arithmetic mean of the per-calendar-month sums
over the populated months only — a month appears as a bucket exactly when
some income row falls in it — and likewise `monthly_expenses_avg` over the
non-income rows; on the spec's example (income only in 2024-01 summing 1000
and 2024-03 summing 3000, nothing in 2024-02) the average is 2000. -/
theorem monthly_avg_over_populated_months :
    (∀ df : List Row, incomeRows df ≠ [] →
        (analyze_income df).monthly_income_avg =
          meanOfBuckets ((monthlySums (incomeRows df)).map Prod.snd) ∧
        (∀ k : Nat, (∃ s, (k, s) ∈ monthlySums (incomeRows df)) ↔
          ∃ r ∈ incomeRows df, monthKey r = k)) ∧
    (∀ df : List Row, expenseRows df ≠ [] →
        (analyze_expenses df).monthly_expenses_avg =
          meanOfBuckets ((monthlySums (expenseRows df)).map Prod.snd)) ∧
    (analyze_income exampleIncomeRows).monthly_income_avg = 2000 := by
  refine ⟨?_, ?_, ?_⟩
  · intro df h
    have he : (incomeRows df).isEmpty = false := isEmpty_false_of_ne_nil h
    constructor
    · simp [analyze_income, he, meanOfBuckets]
    · intro k
      exact exists_mem_monthlySums_iff (incomeRows df) k
  · intro df h
    have he : (expenseRows df).isEmpty = false := isEmpty_false_of_ne_nil h
    simp [analyze_expenses, he, meanOfBuckets]
  · decide

/-- Witness for C4 at the spec's two-month example. -/
theorem monthly_avg_over_populated_months_witness :
    (analyze_income exampleIncomeRows).monthly_income_avg =
      meanOfBuckets ((monthlySums (incomeRows exampleIncomeRows)).map Prod.snd) :=
  (monthly_avg_over_populated_months.1 exampleIncomeRows (by decide)).1

lemma clamp_bounds (s : ℤ) : 0 ≤ max 0 (min 100 s) ∧ max 0 (min 100 s) ≤ 100 := by
  omega

unseal Rat.ofScientific Rat.mul Rat.inv Rat.add Rat.sub in
lemma health_score_example_60 :
    calculate_financial_health_score 50000 40000 0 ("stable") = 60 := by
  decide

lemma ratio_block_eq (s : ℤ) (sf : ℚ) :
    (if sf > 0.2 then s + 20 else if sf > 0.1 then s + 10
     else if sf > 0 then s + 5 else s - 20) = s + specRatioBonus sf := by
  unfold specRatioBonus
  split_ifs <;> omega

lemma target_block_eq (s : ℤ) (act tgt : ℚ) :
    (if act ≥ tgt then s + 15 else if act ≥ tgt * 0.8 then s + 10
     else if act ≥ tgt * 0.5 then s + 5 else s) = s + specTargetBonus act tgt := by
  rw [mul_comm tgt (0.8 : ℚ), mul_comm tgt (0.5 : ℚ)]
  unfold specTargetBonus
  split_ifs <;> omega

lemma trend_block_eq (s : ℤ) (trend : String) :
    (if trend = ("decreasing") then s + 10 else if trend = ("increasing") then s - 10
     else s) = s + specTrendAdj trend := by
  unfold specTrendAdj
  split_ifs <;> omega

/-- C5: the health score is 50 plus, when monthly income is positive, the
strict-comparison ratio bracket bonus and (when the savings target is
positive) the target bonus, plus the trend adjustment (applied even at zero
income), clamped to the range 0 to 100; income 50000, expenses 40000, target
0, stable trend gives exactly 60 (ratio exactly 0.20 falls into the +10
bracket), and the score always lies between 0 and 100. -/
theorem health_score_formula :
    (∀ (inc expn tgt : ℚ) (trend : String),
        calculate_financial_health_score inc expn tgt trend =
          specHealthScore inc expn tgt trend) ∧
    calculate_financial_health_score 50000 40000 0 ("stable") = 60 ∧
    (∀ (inc expn tgt : ℚ) (trend : String),
        0 ≤ calculate_financial_health_score inc expn tgt trend ∧
        calculate_financial_health_score inc expn tgt trend ≤ 100) := by
  refine ⟨?_, health_score_example_60, ?_⟩
  · intro inc expn tgt trend
    simp only [calculate_financial_health_score, specHealthScore,
      ratio_block_eq, target_block_eq, trend_block_eq]
    split_ifs <;> omega
  · intro inc expn tgt trend
    simp only [calculate_financial_health_score]
    exact clamp_bounds _

/-- C6: with no non-income rows the spending patterns are stable with null
extreme months; with exactly one populated month the trend is
insufficient_data; with two or more populated months the trend is classified
by the sign of the ordinary-least-squares slope over the chronological
monthly sums indexed from 0. -/
theorem spending_trend_classification :
    (∀ df : List Row, expenseRows df = [] →
        analyze_spending_patterns df = ⟨"stable", none, none, []⟩) ∧
    (∀ df : List Row, (monthlySums (expenseRows df)).length = 1 →
        (analyze_spending_patterns df).spending_trend = "insufficient_data") ∧
    (∀ df : List Row, 2 ≤ (monthlySums (expenseRows df)).length →
        (analyze_spending_patterns df).spending_trend =
          (if olsSlope ((monthlySums (expenseRows df)).map Prod.snd) > 0
             then ("increasing")
           else if olsSlope ((monthlySums (expenseRows df)).map Prod.snd) < 0
             then ("decreasing")
           else ("stable"))) := by
  refine ⟨?_, ?_, ?_⟩
  · intro df h
    simp [analyze_spending_patterns, h]
  · intro df h
    have hnil : expenseRows df ≠ [] := by
      intro hn
      rw [hn] at h
      simp [monthlySums, dedupFirst] at h
    simp [analyze_spending_patterns, isEmpty_false_of_ne_nil hnil, h]
  · intro df h
    have hnil : expenseRows df ≠ [] := by
      intro hn
      rw [hn] at h
      simp [monthlySums, dedupFirst] at h
    have hlen : (monthlySums (expenseRows df)).length > 1 := by omega
    simp [analyze_spending_patterns, isEmpty_false_of_ne_nil hnil, hlen]

unseal Rat.ofScientific Rat.mul Rat.inv Rat.add Rat.sub in
/-- Witness for C6 at three months of increasing spending. -/
theorem spending_trend_classification_witness :
    (analyze_spending_patterns exampleTrendRows).spending_trend =
      (if olsSlope ((monthlySums (expenseRows exampleTrendRows)).map Prod.snd) > 0
         then ("increasing")
       else if olsSlope ((monthlySums (expenseRows exampleTrendRows)).map Prod.snd) < 0
         then ("decreasing")
       else ("stable")) :=
  spending_trend_classification.2.2 exampleTrendRows (by decide)

lemma categoryBreakdown_perm (rows : List Row) :
    (categoryBreakdown rows).Perm (perCategorySums rows) := by
  unfold categoryBreakdown perCategorySums
  exact (List.perm_insertionSort _ _).trans ((List.perm_insertionSort _ _).map _)

lemma categoryBreakdown_length (rows : List Row) :
    (categoryBreakdown rows).length = (dedupFirst [] (rows.map Row.category)).length := by
  unfold categoryBreakdown
  rw [(List.perm_insertionSort _ _).length_eq, List.length_map,
    (List.perm_insertionSort _ _).length_eq]

/-- C7: for a non-empty non-income row set, the expense breakdown is the
per-category sums sorted descending by amount (a stable sort over the
grouping order, hence deterministic tie-breaking), and the top spending
categories are exactly its first min(5, distinct-category-count) entries —
exactly 5 of them when there are at least 8 distinct categories. -/
theorem expense_breakdown_top5 :
    ∀ df : List Row, expenseRows df ≠ [] →
      ((analyze_expenses df).expense_breakdown.Sorted
        (fun p q : String × ℚ => q.2 ≤ p.2)) ∧
      (analyze_expenses df).top_spending_categories =
        (analyze_expenses df).expense_breakdown.take 5 ∧
      ((analyze_expenses df).expense_breakdown.Perm
        (perCategorySums (expenseRows df))) ∧
      (analyze_expenses df).top_spending_categories.length =
        min 5 (dedupFirst [] ((expenseRows df).map Row.category)).length ∧
      (8 ≤ (dedupFirst [] ((expenseRows df).map Row.category)).length →
        (analyze_expenses df).top_spending_categories.length = 5) := by
  intro df h
  have he := isEmpty_false_of_ne_nil h
  have hlen : (analyze_expenses df).top_spending_categories.length =
      min 5 (dedupFirst [] ((expenseRows df).map Row.category)).length := by
    simp only [analyze_expenses, he, Bool.false_eq_true, if_false]
    rw [List.length_take, categoryBreakdown_length]
  refine ⟨?_, ?_, ?_, hlen, ?_⟩
  · simp only [analyze_expenses, he, Bool.false_eq_true, if_false]
    exact List.sorted_insertionSort _ _
  · simp only [analyze_expenses, he, Bool.false_eq_true, if_false]
  · simp only [analyze_expenses, he, Bool.false_eq_true, if_false]
    exact categoryBreakdown_perm (expenseRows df)
  · intro h8
    rw [hlen]
    omega

unseal Rat.ofScientific Rat.mul Rat.inv Rat.add Rat.sub in
/-- Witness for C7 at a three-category expense table. -/
theorem expense_breakdown_top5_witness :
    (analyze_expenses exampleTrendRows).top_spending_categories =
      (analyze_expenses exampleTrendRows).expense_breakdown.take 5 :=
  (expense_breakdown_top5 exampleTrendRows (by decide)).2.1

/-- C8: each analyzer returns its zero/empty defaults on an empty filtered
input instead of failing: no income rows gives zero totals and no sources, no
non-income rows gives zero expense aggregates and an empty breakdown, and the
spending patterns degenerate to a stable trend with null extreme months (all
functions are total, so no arithmetic error can occur). -/
theorem analyzers_empty_defaults :
    ∀ df : List Row,
      (incomeRows df = [] → analyze_income df = ⟨0, 0, []⟩) ∧
      (expenseRows df = [] → analyze_expenses df = ⟨0, 0, [], []⟩) ∧
      (expenseRows df = [] →
        analyze_spending_patterns df = ⟨"stable", none, none, []⟩) := by
  intro df
  refine ⟨fun h => ?_, fun h => ?_, fun h => ?_⟩
  · simp [analyze_income, h]
  · simp [analyze_expenses, h]
  · simp [analyze_spending_patterns, h]

/-- Witness for C8 at the empty table. -/
theorem analyzers_empty_defaults_witness :
    analyze_income [] = ⟨0, 0, []⟩ ∧ analyze_expenses [] = ⟨0, 0, [], []⟩ ∧
      analyze_spending_patterns [] = (⟨"stable", none, none, []⟩ : SpendingPatterns) :=
  ⟨(analyzers_empty_defaults []).1 rfl, (analyzers_empty_defaults []).2.1 rfl,
   (analyzers_empty_defaults []).2.2 rfl⟩

lemma to_datetime_isTs (d : DateVal) (h : d.isTs = true) : to_datetime d = d := by
  cases d with
  | raw s => simp [DateVal.isTs] at h
  | ts y m dd => rfl

unseal Rat.ofScientific Rat.mul Rat.inv Rat.add Rat.sub in
/-- C9 counterexample: the analysis run is not read-only over the table — on
a categorized table whose date column still holds the raw text
"2024-01-05", `analyze_transactions` rewrites the column in place with
`pd.to_datetime`, so the table differs before and after. -/
theorem analysis_rewrites_date_column_cex :
    (analyze_transactions exampleRawDateRows exampleProfile).1 ≠
      exampleRawDateRows := by
  decide

/-- C9 amended: the analysis run never changes row count, descriptions,
amounts, types or categories of the categorized table; the only mutation is
the in-place conversion of the date column through `pd.to_datetime`, so a
table whose dates are already in datetime form is unchanged. -/
theorem analysis_preserves_fields :
    ∀ (df : List Row) (p : UserProfile),
      (analyze_transactions df p).1.map Row.description = df.map Row.description ∧
      (analyze_transactions df p).1.map Row.amount = df.map Row.amount ∧
      (analyze_transactions df p).1.map Row.txType = df.map Row.txType ∧
      (analyze_transactions df p).1.map Row.category = df.map Row.category ∧
      (analyze_transactions df p).1.map Row.date =
        df.map (fun r => to_datetime r.date) ∧
      ((∀ r ∈ df, r.date.isTs = true) → (analyze_transactions df p).1 = df) := by
  intro df p
  cases df with
  | nil => exact ⟨rfl, rfl, rfl, rfl, rfl, fun _ => rfl⟩
  | cons r0 rest =>
    have hd : (r0 :: rest).isEmpty = false := rfl
    simp only [analyze_transactions, hd, Bool.false_eq_true, if_false]
    refine ⟨by rw [List.map_map]; rfl, by rw [List.map_map]; rfl,
      by rw [List.map_map]; rfl, by rw [List.map_map]; rfl,
      by rw [List.map_map]; rfl, ?_⟩
    intro hts
    have : ∀ r ∈ r0 :: rest,
        (fun r : Row =>
          (⟨to_datetime r.date, r.description, r.amount, r.txType, r.category⟩ : Row)) r
          = id r := by
      intro r hr
      simp only [id]
      rw [to_datetime_isTs r.date (hts r hr)]
    rw [List.map_congr_left this, List.map_id]

unseal Rat.ofScientific Rat.mul Rat.inv Rat.add Rat.sub in
/-- Witness for C9's amended theorem: a table already in datetime form is
returned unchanged. -/
theorem analysis_preserves_fields_witness :
    (analyze_transactions exampleTsDateRows exampleProfile).1 = exampleTsDateRows :=
  (analysis_preserves_fields exampleTsDateRows exampleProfile).2.2.2.2.2 (by decide)

/-- C10: analyzing an empty transaction table returns the user profile
exactly as passed in — in particular a previously attached
`transaction_analysis` survives untouched — while a non-empty table wholly
replaces `transaction_analysis` with the freshly computed record. -/
theorem empty_table_leaves_profile_unchanged :
    (∀ p : UserProfile, analyze_transactions [] p = ([], p)) ∧
    (∀ (df : List Row) (p : UserProfile), df ≠ [] →
        (analyze_transactions df p).2.transaction_analysis =
          some (computeAnalysis (df.map (fun r =>
            ⟨to_datetime r.date, r.description, r.amount, r.txType, r.category⟩)) p)) := by
  constructor
  · intro p
    rfl
  · intro df p h
    simp [analyze_transactions, isEmpty_false_of_ne_nil h]

unseal Rat.ofScientific Rat.mul Rat.inv Rat.add Rat.sub in
/-- Witness for C10's non-empty conjunct at a one-row table. -/
theorem empty_table_leaves_profile_unchanged_witness :
    (analyze_transactions exampleRawDateRows exampleProfile).2.transaction_analysis =
      some (computeAnalysis (exampleRawDateRows.map (fun r =>
        ⟨to_datetime r.date, r.description, r.amount, r.txType, r.category⟩))
        exampleProfile) :=
  empty_table_leaves_profile_unchanged.2 exampleRawDateRows exampleProfile (by decide)

end SmartExpense
